import Mathlib

/-!
Shallow embedding of `src/app.py` (Application Tracking System, a Streamlit
front-end over a hosted Gemini model).  Pure Python library behaviour that the
app relies on (`str.strip`, slicing, `str.startswith`, `json.loads`,
`base64.b64encode`, truthiness) is embedded by executable Lean functions;
the external provider call and the PDF rasterizer are passed in as function
parameters, so that the app's control flow around them is fully explicit.
-/

/-- Python whitespace characters stripped by `str.strip()` (ASCII subset). -/
def isPyWs (c : Char) : Bool :=
  c = ' ' || c = '\t' || c = '\n' || c = '\x0d' || c = '\x0b' || c = '\x0c'

/-- `s.strip()`: remove leading and trailing whitespace. -/
def pyStrip (s : String) : String :=
  String.mk (((s.data.dropWhile isPyWs).reverse.dropWhile isPyWs).reverse)

/-- Python slice `s[7:-3]` : characters from index 7 up to `len - 3`
(both clamped), empty when the range is empty. -/
def pySliceDrop7Last3 (s : String) : String :=
  let n := s.data.length
  String.mk ((s.data.take (n - 3)).drop (min 7 n))

/-- JSON values as produced by `json.loads`.  Numbers are modelled as
integers (no float in the app's data ever arises). -/
inductive JsonValue : Type where
  | null : JsonValue
  | bool (b : Bool) : JsonValue
  | num (n : Int) : JsonValue
  | str (s : String) : JsonValue
  | arr (xs : List JsonValue) : JsonValue
  | obj (kvs : List (String × JsonValue)) : JsonValue

/-- Python truthiness of a parsed JSON value (`if response:`):
`None`-like emptiness is falsy. -/
def JsonValue.truthy : JsonValue → Bool
  | .null => false
  | .bool b => b
  | .num n => n != 0
  | .str s => s != ""
  | .arr xs => !xs.isEmpty
  | .obj kvs => !kvs.isEmpty

/-- `dict.get` semantics on the association list built by the parser:
for duplicate keys `json.loads` keeps the last occurrence. -/
def objGetLast (kvs : List (String × JsonValue)) (k : String) : Option JsonValue :=
  (kvs.filter (fun p => p.1 = k)).getLast?.map (fun p => p.2)

/-- JSON grammar whitespace (the set `json.loads` skips between tokens). -/
def isJsonWs (c : Char) : Bool :=
  c = ' ' || c = '\t' || c = '\n' || c = '\x0d'

def skipWs (cs : List Char) : List Char := cs.dropWhile isJsonWs

/-- Value of a hexadecimal digit (codepoint arithmetic over the three
ASCII digit ranges). -/
def hexVal (c : Char) : Option Nat :=
  let n := c.toNat
  if 48 ≤ n && n ≤ 57 then some (n - 48)
  else if 97 ≤ n && n ≤ 102 then some (n - 87)
  else if 65 ≤ n && n ≤ 70 then some (n - 55)
  else none

/-- Body of a JSON string literal, after the opening quote: returns the
decoded string and the input following the closing quote.  Unescaped
control characters are rejected, as in `json.loads` strict mode. -/
def parseStrBody : Nat → List Char → Option (String × List Char)
  | 0, _ => none
  | _, [] => none
  | f + 1, c :: rest =>
    if c = '"' then some ("", rest)
    else if c = '\\' then
      match rest with
      | 'n' :: r => (parseStrBody f r).map (fun p => (String.mk ('\n' :: p.1.data), p.2))
      | 't' :: r => (parseStrBody f r).map (fun p => (String.mk ('\t' :: p.1.data), p.2))
      | 'r' :: r => (parseStrBody f r).map (fun p => (String.mk ('\x0d' :: p.1.data), p.2))
      | 'b' :: r => (parseStrBody f r).map (fun p => (String.mk ('\x08' :: p.1.data), p.2))
      | 'f' :: r => (parseStrBody f r).map (fun p => (String.mk ('\x0c' :: p.1.data), p.2))
      | '/' :: r => (parseStrBody f r).map (fun p => (String.mk ('/' :: p.1.data), p.2))
      | '"' :: r => (parseStrBody f r).map (fun p => (String.mk ('"' :: p.1.data), p.2))
      | '\\' :: r => (parseStrBody f r).map (fun p => (String.mk ('\\' :: p.1.data), p.2))
      | 'u' :: h1 :: h2 :: h3 :: h4 :: r =>
        match hexVal h1, hexVal h2, hexVal h3, hexVal h4 with
        | some a, some b, some c2, some d =>
          let n := ((a * 16 + b) * 16 + c2) * 16 + d
          if Nat.isValidChar n then
            (parseStrBody f r).map (fun p => (String.mk (Char.ofNat n :: p.1.data), p.2))
          else none
        | _, _, _, _ => none
      | _ => none
    else if c.toNat < 32 then none
    else (parseStrBody f rest).map (fun p => (String.mk (c :: p.1.data), p.2))

def isDecDigit (c : Char) : Bool := 48 ≤ c.toNat && c.toNat ≤ 57

/-- Decimal value of a digit run, accumulator style. -/
def decAccum (acc : Nat) : List Char → Nat
  | [] => acc
  | c :: cs => decAccum (acc * 10 + (c.toNat - 48)) cs

/-- JSON unsigned integer literal (no redundant leading zero). -/
def parseNumCore (cs : List Char) : Option (Nat × List Char) :=
  match cs.takeWhile isDecDigit with
  | [] => none
  | '0' :: _ :: _ => none
  | digits => some (decAccum 0 digits, cs.dropWhile isDecDigit)

/-- JSON integer literal with an optional leading minus sign. -/
def parseNum : List Char → Option (JsonValue × List Char)
  | '-' :: r => (parseNumCore r).map (fun p => (.num (-(p.1 : Int)), p.2))
  | cs => (parseNumCore cs).map (fun p => (.num (p.1 : Int), p.2))

mutual

/-- One JSON value, recursive-descent, fuel-indexed.  The fuel only bounds
nesting depth; `jsonLoads` supplies enough for any input. -/
def parseVal : Nat → List Char → Option (JsonValue × List Char)
  | 0, _ => none
  | f + 1, cs0 =>
    match skipWs cs0 with
    | [] => none
    | 'n' :: 'u' :: 'l' :: 'l' :: r => some (.null, r)
    | 't' :: 'r' :: 'u' :: 'e' :: r => some (.bool true, r)
    | 'f' :: 'a' :: 'l' :: 's' :: 'e' :: r => some (.bool false, r)
    | '"' :: r => (parseStrBody (r.length + 1) r).map (fun p => (.str p.1, p.2))
    | '[' :: r =>
      match skipWs r with
      | ']' :: r2 => some (.arr [], r2)
      | r2 =>
        match parseArrItems f r2 with
        | some (xs, r3) => some (.arr xs, r3)
        | none => none
    | '\x7b' :: r =>
      match skipWs r with
      | '\x7d' :: r2 => some (.obj [], r2)
      | r2 =>
        match parseObjItems f r2 with
        | some (kvs, r3) => some (.obj kvs, r3)
        | none => none
    | cs => parseNum cs

/-- Comma-separated array elements, then the closing bracket. -/
def parseArrItems : Nat → List Char → Option (List JsonValue × List Char)
  | 0, _ => none
  | f + 1, cs =>
    match parseVal f cs with
    | none => none
    | some (v, r) =>
      match skipWs r with
      | ',' :: r2 =>
        match parseArrItems f r2 with
        | some (xs, r3) => some (v :: xs, r3)
        | none => none
      | ']' :: r2 => some ([v], r2)
      | _ => none

/-- Comma-separated `"key": value` members, then the closing brace. -/
def parseObjItems : Nat → List Char → Option (List (String × JsonValue) × List Char)
  | 0, _ => none
  | f + 1, cs =>
    match skipWs cs with
    | '"' :: r =>
      match parseStrBody (r.length + 1) r with
      | none => none
      | some (k, r2) =>
        match skipWs r2 with
        | ':' :: r3 =>
          match parseVal f r3 with
          | none => none
          | some (v, r4) =>
            match skipWs r4 with
            | ',' :: r5 =>
              match parseObjItems f r5 with
              | some (kvs, r6) => some ((k, v) :: kvs, r6)
              | none => none
            | '\x7d' :: r5 => some ([(k, v)], r5)
            | _ => none
        | _ => none
    | _ => none

end

/-- `json.loads`: parse one JSON document, requiring the whole input to be
consumed up to trailing whitespace; `none` models `json.JSONDecodeError`. -/
def jsonLoads (s : String) : Option JsonValue :=
  match parseVal (2 * s.data.length + 2) s.data with
  | some (v, rest) => if skipWs rest = [] then some v else none
  | none => none

/-- The base64 alphabet, as used by `base64.b64encode`. -/
def b64Char (n : Nat) : Char :=
  (("ABCDEFGHIJKLMNOPQRSTUVWXYZabcdefghijklmnopqrstuvwxyz0123456789+/").data.getD n '=')

/-- `base64.b64encode(bytes).decode()` over a byte list. -/
def base64Encode : List Nat → String
  | [] => ""
  | [a] =>
    String.mk [b64Char ((a % 256) / 4), b64Char ((a % 4) * 16), '=', '=']
  | [a, b] =>
    String.mk [b64Char ((a % 256) / 4), b64Char ((a % 4) * 16 + (b % 256) / 16),
      b64Char ((b % 16) * 4), '=']
  | a :: b :: c :: rest =>
    String.mk [b64Char ((a % 256) / 4), b64Char ((a % 4) * 16 + (b % 256) / 16),
      b64Char ((b % 16) * 4 + (c % 256) / 64), b64Char (c % 64)] ++ base64Encode rest

/-- An uploaded file as held in the Streamlit session: an object identity
(used by the cache key) and its PDF bytes (`uploaded_file.read()`). -/
structure UploadedFile : Type where
  id : Nat
  bytes : List Nat

/-- One element of the list `input_pdf_setup` returns:
`{"mime_type": ..., "data": ...}`. -/
structure PdfPart : Type where
  mime_type : String
  data : String
deriving DecidableEq

/-- Python exceptions that can escape the embedded code. -/
inductive PyError : Type where
  | fileNotFound (msg : String)
  | indexError
  | providerError (msg : String)
  | attributeError
  | typeError
deriving DecidableEq

/-- The payload of one `model.generate_content([prompt, pdf_content[0],
job_description], generation_config={"temperature": 0.2})` call. -/
structure GenRequest : Type where
  prompt : String
  image : PdfPart
  job_description : String

/-- Outcome of one provider call: `response.text`, a `ResourceExhausted`
exception, or any other provider exception. -/
inductive ProviderOutcome : Type where
  | success (text : String)
  | quotaExhausted
  | otherError (msg : String)

/-- Result of running one of the two Gemini wrappers: seconds slept via
`time.sleep`, number of `generate_content` invocations, and the returned
value or escaping exception. -/
structure CallResult (α : Type) : Type where
  sleptSeconds : Nat
  providerCalls : Nat
  outcome : Except PyError α

/-- `get_gemini_response(prompt, pdf_content, job_description)` from
`src/app.py` lines 18-27, with the provider as an explicit parameter. -/
def get_gemini_response (provider : GenRequest → ProviderOutcome)
    (prompt : String) (pdf_content : List PdfPart) (job_description : String) :
    CallResult String :=
  match pdf_content with
  | [] => ⟨0, 0, .error .indexError⟩
  | img :: _ =>
    match provider ⟨prompt, img, job_description⟩ with
    | .success t => ⟨0, 1, .ok t⟩
    | .quotaExhausted =>
      ⟨10, 1, .ok "⚠️ Gemini API quota exceeded. Please wait a few seconds and try again."⟩
    | .otherError m => ⟨0, 1, .error (.providerError m)⟩

/-- `needle.isPrefixOf-style` test on character lists, for
Python's `str.startswith`. -/
def listStartsWith : List Char → List Char → Bool
  | [], _ => true
  | _ :: _, [] => false
  | p :: ps, c :: cs => p = c && listStartsWith ps cs

/-- The backtick character. -/
def backtick : Char := Char.ofNat 96

/-- Lines 35-37: `text = response.text.strip()`; if it starts with three
backticks, take `text[7:-3]`. -/
def stripFence (raw : String) : String :=
  let text := pyStrip raw
  if listStartsWith [backtick, backtick, backtick] text.data then
    pySliceDrop7Last3 text
  else text

/-- `get_gemini_response_keywords(prompt, pdf_content, job_description)`
from `src/app.py` lines 29-40: `json.loads` failure and `ResourceExhausted`
are both caught and yield `None` (here `Option.none`). -/
def get_gemini_response_keywords (provider : GenRequest → ProviderOutcome)
    (prompt : String) (pdf_content : List PdfPart) (job_description : String) :
    CallResult (Option JsonValue) :=
  match pdf_content with
  | [] => ⟨0, 0, .error .indexError⟩
  | img :: _ =>
    match provider ⟨prompt, img, job_description⟩ with
    | .success t => ⟨0, 1, .ok (jsonLoads (stripFence t))⟩
    | .quotaExhausted => ⟨0, 1, .ok none⟩
    | .otherError m => ⟨0, 1, .error (.providerError m)⟩

/-- `input_pdf_setup(uploaded_file)` from `src/app.py` lines 42-56, with the
rasterizer (`pdf2image.convert_from_bytes`, page = byte list) and the JPEG
encoder (`first_page.save(..., format="JPEG")`) as explicit parameters. -/
def input_pdf_setup (convert_from_bytes : List Nat → List (List Nat))
    (jpegBytes : List Nat → List Nat) (uploaded_file : Option UploadedFile) :
    Except PyError (List PdfPart) :=
  match uploaded_file with
  | none => .error (.fileNotFound "No file uploaded")
  | some f =>
    match convert_from_bytes f.bytes with
    | [] => .error .indexError
    | first_page :: _ =>
      .ok [⟨"image/jpeg", base64Encode (jpegBytes first_page)⟩]

/-- Modelled from the spec: the `@st.cache_data` decorator on
`input_pdf_setup` (Streamlit library code, not in `src/`) memoizes the
result keyed by the identity of the uploaded file object; exceptions are
not cached.  The third component counts rasterizations performed. -/
def input_pdf_setup_cached (convert_from_bytes : List Nat → List (List Nat))
    (jpegBytes : List Nat → List Nat) (cache : List (Nat × List PdfPart))
    (f : UploadedFile) :
    Except PyError (List PdfPart) × List (Nat × List PdfPart) × Nat :=
  match cache.lookup f.id with
  | some v => (.ok v, cache, 0)
  | none =>
    match input_pdf_setup convert_from_bytes jpegBytes (some f) with
    | .ok v => (.ok v, (f.id, v) :: cache, 1)
    | .error e => (.error e, cache, 1)

/-- The per-session state the button handlers read: the job-description
text area and the uploaded-résumé slot (`st.session_state.resume`). -/
structure Session : Type where
  input_text : String
  resume : Option UploadedFile

/-- The three action buttons. -/
inductive Button : Type where
  | submit1
  | submit2
  | submit3
deriving DecidableEq

/-- Observable UI effects of one button press. -/
inductive Effect : Type where
  | warn (msg : String)
  | convertPdf
  | providerCall
  | subheader (s : String)
  | write (s : String)
  | showError (msg : String)
deriving DecidableEq

def input_prompt1 : String :=
  "\nYou are an experienced Technical Human Resource Manager.\nReview the resume against the job description and provide strengths and weaknesses.\n"

def input_prompt2 : String :=
  "\nAs an expert ATS scanner, identify skills required from the job description.\nReturn JSON only in this format:\n\x7b \"Technical Skills\": [], \"Analytical Skills\": [], \"Soft Skills\": [] \x7d\n"

def input_prompt3 : String :=
  "\nEvaluate the resume against the job description.\nReturn:\n1) Percentage match\n2) Missing keywords\n3) Final thoughts\n"

/-- `', '.join(x)` where `x` came from JSON: succeeds only on a list of
strings (anything else raises `TypeError` in Python). -/
def asPyStr : JsonValue → Option String
  | .str s => some s
  | _ => none

/-- Join strings with `", "` (the semantics of `', '.join` on a list). -/
def joinCommaSpace : List String → String
  | [] => ""
  | [s] => s
  | s :: rest => s ++ ", " ++ joinCommaSpace rest

def pyJoinComma : JsonValue → Option String
  | .arr xs => (xs.mapM asPyStr).map joinCommaSpace
  | _ => none

/-- One `st.write(f"**<label>:** {', '.join(response.get(<key>, []))}")`
line of the keyword handler (lines 132-134): `.get` on a non-dict raises
`AttributeError`, a non-string-list value raises `TypeError`. -/
def categoryLine (label key : String) (v : JsonValue) : Except PyError String :=
  match v with
  | .obj kvs =>
    match pyJoinComma ((objGetLast kvs key).getD (.arr [])) with
    | some joined => .ok ("**" ++ label ++ ":** " ++ joined)
    | none => .error .typeError
  | _ => .error .attributeError

/-- Truthiness test of `if response:` on the keyword result. -/
def optTruthy : Option JsonValue → Bool
  | none => false
  | some v => v.truthy

/-- Lines 130-136: rendering of the keyword-extraction result.  Returns the
emitted effects and the escaping exception, if any. -/
def submit2_render (response : Option JsonValue) : List Effect × Option PyError :=
  if optTruthy response then
    match response with
    | none => ([], none)
    | some v =>
      match categoryLine "Technical Skills" "Technical Skills" v with
      | .error e => ([.subheader "Extracted Skills"], some e)
      | .ok l1 =>
        match categoryLine "Analytical Skills" "Analytical Skills" v with
        | .error e => ([.subheader "Extracted Skills", .write l1], some e)
        | .ok l2 =>
          match categoryLine "Soft Skills" "Soft Skills" v with
          | .error e => ([.subheader "Extracted Skills", .write l1, .write l2], some e)
          | .ok l3 =>
            ([.subheader "Extracted Skills", .write l1, .write l2, .write l3], none)
  else
    ([.showError "Could not extract skills. Please try again."], none)

/-- `validate_inputs()` from `src/app.py` lines 107-114. -/
def validate_inputs (s : Session) : List Effect × Bool :=
  if pyStrip s.input_text = "" then
    ([.warn "Please enter a job description."], false)
  else
    match s.resume with
    | none => ([.warn "Please upload a resume."], false)
    | some _ => ([], true)

/-- The button-action block, `src/app.py` lines 118-143: one press of one
button (the `elif` chain makes the three cases mutually exclusive).  The
`Effect.convertPdf` effect marks the rasterization inside
`input_pdf_setup`; `Effect.providerCall` marks the `generate_content`
call. -/
def pressButton (convert_from_bytes : List Nat → List (List Nat))
    (jpegBytes : List Nat → List Nat) (provider : GenRequest → ProviderOutcome)
    (b : Button) (s : Session) : List Effect × Option PyError :=
  match validate_inputs s with
  | (effs, false) => (effs, none)
  | (_, true) =>
    match input_pdf_setup convert_from_bytes jpegBytes s.resume with
    | .error e => ([.convertPdf], some e)
    | .ok pdf_content =>
      match b with
      | .submit1 =>
        match (get_gemini_response provider input_prompt1 pdf_content s.input_text).outcome with
        | .ok t => ([.convertPdf, .providerCall, .subheader "Resume Evaluation", .write t], none)
        | .error e => ([.convertPdf, .providerCall], some e)
      | .submit2 =>
        match (get_gemini_response_keywords provider input_prompt2 pdf_content s.input_text).outcome with
        | .ok r =>
          let (effs, err) := submit2_render r
          (.convertPdf :: .providerCall :: effs, err)
        | .error e => ([.convertPdf, .providerCall], some e)
      | .submit3 =>
        match (get_gemini_response provider input_prompt3 pdf_content s.input_text).outcome with
        | .ok t => ([.convertPdf, .providerCall, .subheader "ATS Match Result", .write t], none)
        | .error e => ([.convertPdf, .providerCall], some e)

/-- Drop every `**` pair, left to right. -/
def dropBoldMarks : List Char → List Char
  | '*' :: '*' :: rest => dropBoldMarks rest
  | c :: rest => c :: dropBoldMarks rest
  | [] => []

/-- The text a markdown `st.write` line shows on screen: the `**` bold
markers are consumed by the renderer. -/
def markdownPlain (s : String) : String := String.mk (dropBoldMarks s.data)

/-- The exact response body of the spec's keyword-path test case. -/
def fencedKeywordText : String :=
  "```json\n\x7b\"Technical Skills\":[\"A\"],\"Analytical Skills\":[],\"Soft Skills\":[\"B\"]\x7d\n```"

/-- A session with a valid one-page PDF uploaded and non-empty job text. -/
def demoSession : Session := ⟨"job text", some ⟨1, [9, 9]⟩⟩

/-- A rasterizer producing one page for any input. -/
def demoConvert : List Nat → List (List Nat) := fun _ => [[77, 97, 110]]

/-- Claim C1: on the exact fenced response body, `get_gemini_response_keywords`
strips the first 7 and last 3 characters, parses the remainder as JSON, and
the "Get Keywords" handler renders "Technical Skills: A",
"Analytical Skills: ", "Soft Skills: B". -/
theorem c1_fenced_keyword_render :
    stripFence fencedKeywordText =
      "\n\x7b\"Technical Skills\":[\"A\"],\"Analytical Skills\":[],\"Soft Skills\":[\"B\"]\x7d\n" ∧
    jsonLoads (stripFence fencedKeywordText) =
      some (.obj [("Technical Skills", .arr [.str "A"]),
        ("Analytical Skills", .arr []), ("Soft Skills", .arr [.str "B"])]) ∧
    pressButton demoConvert id (fun _ => .success fencedKeywordText) .submit2 demoSession =
      ([.convertPdf, .providerCall, .subheader "Extracted Skills",
        .write "**Technical Skills:** A", .write "**Analytical Skills:** ",
        .write "**Soft Skills:** B"], none) ∧
    [markdownPlain "**Technical Skills:** A", markdownPlain "**Analytical Skills:** ",
      markdownPlain "**Soft Skills:** B"] =
      ["Technical Skills: A", "Analytical Skills: ", "Soft Skills: B"] :=
  ⟨rfl, rfl, rfl, rfl⟩

/-- Claim C2: on a `ResourceExhausted` provider error, `get_gemini_response`
sleeps a fixed 10 seconds, makes exactly one provider call (no retry), does
not raise, and returns the literal quota warning string. -/
theorem c2_quota_warning (provider : GenRequest → ProviderOutcome)
    (prompt : String) (img : PdfPart) (rest : List PdfPart) (job : String)
    (h : provider ⟨prompt, img, job⟩ = .quotaExhausted) :
    get_gemini_response provider prompt (img :: rest) job =
      ⟨10, 1, .ok "⚠️ Gemini API quota exceeded. Please wait a few seconds and try again."⟩ := by
  simp [get_gemini_response, h]

theorem c2_quota_warning_witness :
    (fun _ : GenRequest => ProviderOutcome.quotaExhausted) ⟨"p", ⟨"image/jpeg", "d"⟩, "j"⟩ =
      .quotaExhausted ∧
    get_gemini_response (fun _ => .quotaExhausted) "p" [⟨"image/jpeg", "d"⟩] "j" =
      ⟨10, 1, .ok "⚠️ Gemini API quota exceeded. Please wait a few seconds and try again."⟩ :=
  ⟨rfl, c2_quota_warning (fun _ => .quotaExhausted) "p" ⟨"image/jpeg", "d"⟩ [] "j" rfl⟩

/-- Claim C3: `get_gemini_response_keywords` returns `None` exactly when the
provider raises quota exhaustion or the fence-stripped text fails to parse
as JSON, and on `None` the "Get Keywords" handler shows the generic
extraction-failure message. -/
theorem c3_keywords_none_iff (provider : GenRequest → ProviderOutcome)
    (prompt : String) (img : PdfPart) (rest : List PdfPart) (job : String) :
    ((get_gemini_response_keywords provider prompt (img :: rest) job).outcome = .ok none ↔
      provider ⟨prompt, img, job⟩ = .quotaExhausted ∨
        ∃ t, provider ⟨prompt, img, job⟩ = .success t ∧ jsonLoads (stripFence t) = none) ∧
    submit2_render none = ([.showError "Could not extract skills. Please try again."], none) := by
  constructor
  · cases h : provider ⟨prompt, img, job⟩ with
    | success t => simp [get_gemini_response_keywords, h]
    | quotaExhausted => simp [get_gemini_response_keywords, h]
    | otherError m => simp [get_gemini_response_keywords, h]
  · rfl

/-- Claim C4: with empty (or whitespace-only) job text, any button press
emits only the job-description warning: no provider call, no PDF
conversion. -/
theorem c4_empty_job_warning (convert : List Nat → List (List Nat))
    (jpegBytes : List Nat → List Nat) (provider : GenRequest → ProviderOutcome)
    (b : Button) (s : Session) (h : pyStrip s.input_text = "") :
    pressButton convert jpegBytes provider b s =
      ([.warn "Please enter a job description."], none) ∧
    Effect.providerCall ∉ (pressButton convert jpegBytes provider b s).1 ∧
    Effect.convertPdf ∉ (pressButton convert jpegBytes provider b s).1 ∧
    Effect.warn "Please enter a job description." ∈
      (pressButton convert jpegBytes provider b s).1 := by
  have key : pressButton convert jpegBytes provider b s =
      ([.warn "Please enter a job description."], none) := by
    simp [pressButton, validate_inputs, h]
  refine ⟨key, ?_, ?_, ?_⟩ <;> simp [key]

theorem c4_empty_job_warning_witness :
    pyStrip "   " = "" ∧
    pressButton demoConvert id (fun _ => .success "ok") .submit1 ⟨"   ", some ⟨1, [9]⟩⟩ =
      ([.warn "Please enter a job description."], none) :=
  ⟨rfl, (c4_empty_job_warning demoConvert id (fun _ => .success "ok") .submit1
    ⟨"   ", some ⟨1, [9]⟩⟩ rfl).1⟩

/-- Claim C5: with non-empty job text but no uploaded file in the session
slot, any button press emits only the upload warning: no provider call. -/
theorem c5_no_upload_warning (convert : List Nat → List (List Nat))
    (jpegBytes : List Nat → List Nat) (provider : GenRequest → ProviderOutcome)
    (b : Button) (s : Session) (hjob : pyStrip s.input_text ≠ "")
    (hres : s.resume = none) :
    pressButton convert jpegBytes provider b s =
      ([.warn "Please upload a resume."], none) ∧
    Effect.providerCall ∉ (pressButton convert jpegBytes provider b s).1 ∧
    Effect.warn "Please upload a resume." ∈
      (pressButton convert jpegBytes provider b s).1 := by
  have key : pressButton convert jpegBytes provider b s =
      ([.warn "Please upload a resume."], none) := by
    simp [pressButton, validate_inputs, hjob, hres]
  refine ⟨key, ?_, ?_⟩ <;> simp [key]

theorem c5_no_upload_warning_witness :
    pyStrip "job" ≠ "" ∧
    pressButton demoConvert id (fun _ => .success "ok") .submit2 ⟨"job", none⟩ =
      ([.warn "Please upload a resume."], none) :=
  ⟨by decide, (c5_no_upload_warning demoConvert id (fun _ => .success "ok") .submit2
    ⟨"job", none⟩ (by decide) rfl).1⟩

/-- Claim C6: `input_pdf_setup` raises `FileNotFoundError` on a missing
file, and otherwise returns a single-element list with mime type
"image/jpeg" and the base64 of the JPEG rendering of page 1 only. -/
theorem c6_input_pdf_setup_contract (convert : List Nat → List (List Nat))
    (jpegBytes : List Nat → List Nat) :
    input_pdf_setup convert jpegBytes none = .error (.fileNotFound "No file uploaded") ∧
    ∀ (f : UploadedFile) (page : List Nat) (rest : List (List Nat)),
      convert f.bytes = page :: rest →
      input_pdf_setup convert jpegBytes (some f) =
        .ok [⟨"image/jpeg", base64Encode (jpegBytes page)⟩] := by
  constructor
  · rfl
  · intro f page rest h
    simp [input_pdf_setup, h]

theorem c6_input_pdf_setup_contract_witness :
    demoConvert [] = [77, 97, 110] :: [] ∧
    input_pdf_setup demoConvert id (some ⟨0, []⟩) = .ok [⟨"image/jpeg", "TWFu"⟩] :=
  ⟨rfl, ((c6_input_pdf_setup_contract demoConvert id).2 ⟨0, []⟩ [77, 97, 110] [] rfl).trans rfl⟩

/-- Claim C7: with the memoizing cache keyed by the identity of the uploaded
file, a second press on the same upload returns the same image value with
zero additional rasterizations. -/
theorem c7_cache_reuse (convert : List Nat → List (List Nat))
    (jpegBytes : List Nat → List Nat) (cache : List (Nat × List PdfPart))
    (f : UploadedFile) (h : convert f.bytes ≠ []) :
    (input_pdf_setup_cached convert jpegBytes
        (input_pdf_setup_cached convert jpegBytes cache f).2.1 f).1 =
      (input_pdf_setup_cached convert jpegBytes cache f).1 ∧
    (input_pdf_setup_cached convert jpegBytes
        (input_pdf_setup_cached convert jpegBytes cache f).2.1 f).2.2 = 0 := by
  cases hc : cache.lookup f.id with
  | some v => simp [input_pdf_setup_cached, hc]
  | none =>
    cases hcv : convert f.bytes with
    | nil => exact absurd hcv h
    | cons page rest =>
      simp [input_pdf_setup_cached, hc, input_pdf_setup, hcv, List.lookup]

theorem c7_cache_reuse_witness :
    demoConvert [2] ≠ [] ∧
    (input_pdf_setup_cached demoConvert id
        (input_pdf_setup_cached demoConvert id [] ⟨5, [2]⟩).2.1 ⟨5, [2]⟩).1 =
      (input_pdf_setup_cached demoConvert id [] ⟨5, [2]⟩).1 ∧
    (input_pdf_setup_cached demoConvert id
        (input_pdf_setup_cached demoConvert id [] ⟨5, [2]⟩).2.1 ⟨5, [2]⟩).2.2 = 0 := by
  refine ⟨by simp [demoConvert], ?_, ?_⟩
  · exact (c7_cache_reuse demoConvert id [] ⟨5, [2]⟩ (by simp [demoConvert])).1
  · exact (c7_cache_reuse demoConvert id [] ⟨5, [2]⟩ (by simp [demoConvert])).2

/-- The list of strings a category of the parsed mapping renders: `some []`
when the key is absent (the `.get(key, [])` default), the strings when the
value is a list of strings, `none` when it is anything else. -/
def categoryStrings (kvs : List (String × JsonValue)) (k : String) :
    Option (List String) :=
  match objGetLast kvs k with
  | none => some []
  | some (.arr xs) => xs.mapM asPyStr
  | some _ => none

theorem categoryLine_eq_of_categoryStrings (kvs : List (String × JsonValue))
    (k label : String) (l : List String) (h : categoryStrings kvs k = some l) :
    categoryLine label k (.obj kvs) = .ok ("**" ++ label ++ ":** " ++ joinCommaSpace l) := by
  unfold categoryStrings at h
  cases hg : objGetLast kvs k with
  | none =>
    rw [hg] at h
    simp at h
    subst h
    simp [categoryLine, hg, pyJoinComma]
    rfl
  | some v =>
    rw [hg] at h
    cases v with
    | arr xs => simp_all [categoryLine, hg, pyJoinComma]
    | null => simp at h
    | bool b => simp at h
    | num n => simp at h
    | str s => simp at h
    | obj kvs2 => simp at h

/-- Claim C8: when a truthy mapping is returned, the handler renders three
comma-joined lists under the fixed labels, with an absent category
defaulting to the empty list (empty string after its label). -/
theorem c8_render_three_categories (kvs : List (String × JsonValue))
    (ts ans sos : List String) (hne : kvs ≠ [])
    (h1 : categoryStrings kvs "Technical Skills" = some ts)
    (h2 : categoryStrings kvs "Analytical Skills" = some ans)
    (h3 : categoryStrings kvs "Soft Skills" = some sos) :
    submit2_render (some (.obj kvs)) =
      ([.subheader "Extracted Skills",
        .write ("**Technical Skills:** " ++ joinCommaSpace ts),
        .write ("**Analytical Skills:** " ++ joinCommaSpace ans),
        .write ("**Soft Skills:** " ++ joinCommaSpace sos)], none) := by
  have l1 := categoryLine_eq_of_categoryStrings kvs "Technical Skills" "Technical Skills" ts h1
  have l2 := categoryLine_eq_of_categoryStrings kvs "Analytical Skills" "Analytical Skills" ans h2
  have l3 := categoryLine_eq_of_categoryStrings kvs "Soft Skills" "Soft Skills" sos h3
  cases kvs with
  | nil => exact absurd rfl hne
  | cons p ps =>
    simp [submit2_render, optTruthy, JsonValue.truthy, l1, l2, l3]

theorem c8_render_three_categories_witness :
    ([("Technical Skills", JsonValue.arr [.str "X"])] : List (String × JsonValue)) ≠ [] ∧
    submit2_render (some (.obj [("Technical Skills", .arr [.str "X"])])) =
      ([.subheader "Extracted Skills", .write "**Technical Skills:** X",
        .write "**Analytical Skills:** ", .write "**Soft Skills:** "], none) := by
  refine ⟨by simp, ?_⟩
  exact (c8_render_three_categories [("Technical Skills", .arr [.str "X"])]
    ["X"] [] [] (by simp) rfl rfl rfl).trans rfl

/-- Claim C9: a provider error other than quota exhaustion is caught by
neither wrapper: it escapes both `get_gemini_response` and
`get_gemini_response_keywords`. -/
theorem c9_other_errors_propagate (provider : GenRequest → ProviderOutcome)
    (prompt : String) (img : PdfPart) (rest : List PdfPart) (job m : String)
    (h : provider ⟨prompt, img, job⟩ = .otherError m) :
    (get_gemini_response provider prompt (img :: rest) job).outcome =
      .error (.providerError m) ∧
    (get_gemini_response_keywords provider prompt (img :: rest) job).outcome =
      .error (.providerError m) := by
  constructor
  · simp [get_gemini_response, h]
  · simp [get_gemini_response_keywords, h]

theorem c9_other_errors_propagate_witness :
    (fun _ : GenRequest => ProviderOutcome.otherError "auth") ⟨"p", ⟨"image/jpeg", "d"⟩, "j"⟩ =
      .otherError "auth" ∧
    (get_gemini_response (fun _ => .otherError "auth") "p" [⟨"image/jpeg", "d"⟩] "j").outcome =
      .error (.providerError "auth") :=
  ⟨rfl, (c9_other_errors_propagate (fun _ => .otherError "auth") "p" ⟨"image/jpeg", "d"⟩ [] "j"
    "auth" rfl).1⟩

/-- Claim C10: when the parse succeeds but yields a falsy value (such as
`{}`, `[]`, or `null`), the keyword wrapper returns that value, yet the
handler shows the generic extraction-failure message exactly as on a
failed parse, since it tests truthiness rather than comparing to `None`. -/
theorem c10_falsy_parse_renders_error (provider : GenRequest → ProviderOutcome)
    (prompt : String) (img : PdfPart) (rest : List PdfPart) (job t : String)
    (v : JsonValue) (hp : provider ⟨prompt, img, job⟩ = .success t)
    (hj : jsonLoads (stripFence t) = some v) (hf : v.truthy = false) :
    (get_gemini_response_keywords provider prompt (img :: rest) job).outcome =
      .ok (some v) ∧
    submit2_render (some v) =
      ([.showError "Could not extract skills. Please try again."], none) ∧
    submit2_render (some v) = submit2_render none := by
  refine ⟨by simp [get_gemini_response_keywords, hp, hj], ?_, ?_⟩
  · simp [submit2_render, optTruthy, hf]
  · simp [submit2_render, optTruthy, hf]

theorem c10_falsy_parse_renders_error_witness :
    (fun _ : GenRequest => ProviderOutcome.success "\x7b\x7d") ⟨"p", ⟨"image/jpeg", "d"⟩, "j"⟩ =
      .success "\x7b\x7d" ∧
    jsonLoads (stripFence "\x7b\x7d") = some (.obj []) ∧
    (JsonValue.obj []).truthy = false ∧
    submit2_render (some (.obj [])) =
      ([.showError "Could not extract skills. Please try again."], none) :=
  ⟨rfl, rfl, rfl,
    ((c10_falsy_parse_renders_error (fun _ => .success "\x7b\x7d") "p" ⟨"image/jpeg", "d"⟩ []
      "j" "\x7b\x7d" (.obj []) rfl rfl rfl).2).1⟩
